import Mathlib

/-!
Shallow embedding of the Restbucks resilience control plane and order
lifecycle (src/restbucks/app.py, src/restbucks/restbucks.py), together
with theorems settling the specification claims.

Money is modelled as exact rationals: every monetary constant in the
source (2.50, 3.00, 3.50, 0.50) is an exact binary float, so arithmetic
on them in the source is exact and the rational model is faithful.
Wall-clock timestamps (time.time in the source) are modelled as rationals
passed explicitly to each call that reads the clock.
-/

namespace Restbucks

/-! ### Cost model (app.py calculate_cost, lines 156-158) -/

/-- Embeds the dictionary lookup base.get(size, 3.00) of calculate_cost:
sizes are the raw strings of the source, unknown sizes default to 3.00. -/
def basePrice (size : String) : ℚ :=
  if size = "small" then 5/2
  else if size = "medium" then 3
  else if size = "large" then 7/2
  else 3

/-- Embeds app.py calculate_cost: base.get(size, 3.00) + (shots - 1) * 0.50.
shots is an int in the source (pydantic validates the type only), so the
argument is an integer with no positivity constraint. -/
def calculate_cost (size : String) (shots : ℤ) : ℚ :=
  basePrice size + (shots - 1) * (1/2)

/-- Written from the claim wording, for comparison with the source:
cost = basePrice(size) + max(0, shots-1) * 0.50. -/
def claimedCost (size : String) (shots : ℤ) : ℚ :=
  basePrice size + (max 0 (shots - 1) : ℤ) * (1/2)

/-! ### Bulkhead (app.py lines 31-47)

The source wraps threading.Semaphore(max_concurrent).  A Semaphore
counter is a natural number: acquire(blocking=False) decrements it and
returns True only when it is positive, and release() increments it with
no upper bound (Semaphore, unlike BoundedSemaphore, never refuses a
release).  inFlight is the spec quantity capacity minus available. -/

structure Bulkhead where
  max_concurrent : ℕ
  available : ℕ
  deriving Repr, DecidableEq

/-- Bulkhead.__init__(max_concurrent): the semaphore starts full. -/
def Bulkhead.init (c : ℕ) : Bulkhead := ⟨c, c⟩

/-- Bulkhead.acquire: semaphore.acquire(blocking=False).  Returns whether a
slot was taken together with the new state; never blocks. -/
def Bulkhead.acquire (b : Bulkhead) : Bool × Bulkhead :=
  if 0 < b.available then (true, ⟨b.max_concurrent, b.available - 1⟩)
  else (false, b)

/-- Bulkhead.release: semaphore.release() increments the counter
unconditionally. -/
def Bulkhead.release (b : Bulkhead) : Bulkhead :=
  ⟨b.max_concurrent, b.available + 1⟩

/-- The spec quantity inFlight = capacity - available, as an integer so
that a deficit is visible. -/
def Bulkhead.inFlight (b : Bulkhead) : ℤ :=
  (b.max_concurrent : ℤ) - (b.available : ℤ)

/-- One step of a client interaction trace. -/
inductive BhOp where
  | acquire
  | release
  deriving Repr, DecidableEq

def Bulkhead.step (b : Bulkhead) : BhOp → Bulkhead
  | BhOp.acquire => (b.acquire).2
  | BhOp.release => b.release

def Bulkhead.run (b : Bulkhead) : List BhOp → Bulkhead
  | [] => b
  | op :: rest => (b.step op).run rest

/-- Checks that every release in the trace is paired with a prior
successful acquire of the same run: credit counts successful acquires not
yet released.  This is the discipline the spec imposes on callers
(release called exactly once per successful tryAcquire). -/
def pairedFrom (b : Bulkhead) (credit : ℕ) : List BhOp → Bool
  | [] => true
  | BhOp.acquire :: rest =>
      let (ok, b1) := b.acquire
      pairedFrom b1 (credit + (if ok then 1 else 0)) rest
  | BhOp.release :: rest =>
      if credit = 0 then false else pairedFrom b.release (credit - 1) rest

def paired (c : ℕ) (ops : List BhOp) : Bool :=
  pairedFrom (Bulkhead.init c) 0 ops

/-! ### CircuitBreaker (app.py lines 50-80)

The source keeps state as one of the strings closed, open, half-open,
a failure counter, and the wall-clock time of the last failure (None
until the first failure).  time.time() is passed in explicitly as a
rational. -/

inductive CBState where
  | closed
  | opened
  | halfOpen
  deriving Repr, DecidableEq

structure CircuitBreaker where
  failure_threshold : ℕ
  recovery_timeout : ℚ
  failures : ℕ
  state : CBState
  last_failure_time : Option ℚ
  deriving Repr, DecidableEq

/-- CircuitBreaker.__init__(failure_threshold, recovery_timeout). -/
def CircuitBreaker.init (threshold : ℕ) (timeout : ℚ) : CircuitBreaker :=
  ⟨threshold, timeout, 0, CBState.closed, none⟩

/-- CircuitBreaker.can_execute, with the current clock passed in.  Returns
the boolean result together with the possibly updated breaker (the open
branch mutates state to half-open when the recovery timeout has elapsed).
The combination state = opened with no recorded failure time would raise in
the source (None arithmetic); it is unreachable because the only transition
into opened is record_failure, which always sets the timestamp, so the
total model answers false there without loss. -/
def CircuitBreaker.can_execute (cb : CircuitBreaker) (now : ℚ) :
    Bool × CircuitBreaker :=
  match cb.state with
  | CBState.closed => (true, cb)
  | CBState.opened =>
      match cb.last_failure_time with
      | some t =>
          if cb.recovery_timeout < now - t then
            (true, { cb with state := CBState.halfOpen })
          else (false, cb)
      | none => (false, cb)
  | CBState.halfOpen => (true, cb)

/-- CircuitBreaker.record_success: failures reset, state closed. -/
def CircuitBreaker.record_success (cb : CircuitBreaker) : CircuitBreaker :=
  { cb with failures := 0, state := CBState.closed }

/-- CircuitBreaker.record_failure: increment failures, stamp the clock, and
trip to opened once failures reach the threshold. -/
def CircuitBreaker.record_failure (cb : CircuitBreaker) (now : ℚ) :
    CircuitBreaker :=
  let f := cb.failures + 1
  { cb with
    failures := f
    last_failure_time := some now
    state := if cb.failure_threshold ≤ f then CBState.opened else cb.state }

/-- A sequence of record_failure calls at the given clock readings. -/
def CircuitBreaker.runFailures (cb : CircuitBreaker) :
    List ℚ → CircuitBreaker
  | [] => cb
  | t :: rest => (cb.record_failure t).runFailures rest

/-- One externally visible breaker interaction, for reachability. -/
inductive CBOp where
  | canExec (now : ℚ)
  | recSuccess
  | recFailure (now : ℚ)

/-- State effect of one interaction (the boolean answer of can_execute is
dropped; only the state evolution matters for reachability). -/
def CircuitBreaker.applyOp (cb : CircuitBreaker) : CBOp → CircuitBreaker
  | CBOp.canExec now => (cb.can_execute now).2
  | CBOp.recSuccess => cb.record_success
  | CBOp.recFailure now => cb.record_failure now

def CircuitBreaker.runOps (cb : CircuitBreaker) :
    List CBOp → CircuitBreaker
  | [] => cb
  | op :: rest => (cb.applyOp op).runOps rest

/-- Reachability invariant of the breaker: whenever the state is opened or
half-open, the failure counter has reached the threshold and a failure
timestamp is recorded.  It holds in the initial state and is preserved by
every interaction. -/
def CBInv (cb : CircuitBreaker) : Prop :=
  (cb.state = CBState.opened ∨ cb.state = CBState.halfOpen) →
    (cb.failure_threshold ≤ cb.failures ∧ cb.last_failure_time ≠ none)

/-! ### RateLimiter (app.py lines 90-116)

check_rate_limit does a redis INCR on the per-client key and, exactly when
the returned count is 1 (the INCR created the key), sets a TTL of
RATE_WINDOW seconds; it admits the request when the count is at most
RATE_LIMIT.  The per-key redis state is modelled as Option (count, expiry):
INCR on an absent or expired key creates it with count 1, and the TTL set
at that moment makes it expire at creation time + RATE_WINDOW; later INCRs
within the live window bump the count and leave the expiry alone. -/

def RATE_LIMIT : ℕ := 10

def RATE_WINDOW : ℚ := 60

/-- One call of check_rate_limit for a single client key at clock now:
returns whether the request is admitted and the new redis state of that
key. -/
def check_rate_limit (st : Option (ℕ × ℚ)) (now : ℚ) :
    Bool × Option (ℕ × ℚ) :=
  match st with
  | some (c, e) =>
      if now < e then (decide (c + 1 ≤ RATE_LIMIT), some (c + 1, e))
      else (decide (1 ≤ RATE_LIMIT), some (1, now + RATE_WINDOW))
  | none => (decide (1 ≤ RATE_LIMIT), some (1, now + RATE_WINDOW))

/-- Runs check_rate_limit over a list of request times for one key,
collecting the admit/reject answers and the final key state. -/
def rlRun (st : Option (ℕ × ℚ)) : List ℚ → List Bool × Option (ℕ × ℚ)
  | [] => ([], st)
  | t :: rest =>
      let step := check_rate_limit st t
      let tail := rlRun step.2 rest
      (step.1 :: tail.1, tail.2)

/-! ### Order data model (models.py Order, app.py request models) -/

structure Order where
  id : ℕ
  drink : String
  size : String
  milk : String
  shots : ℤ
  status : String
  cost : ℚ
  paid : Bool
  card_last_four : Option String
  deriving Repr, DecidableEq

/-- app.py OrderRequest (pydantic): all four attribute fields, with the
defaults filled in by the HTTP layer. -/
structure OrderRequest where
  drink : String
  size : String
  milk : String
  shots : ℤ
  deriving Repr, DecidableEq

/-- app.py OrderUpdate (pydantic): every field optional, absent = none. -/
structure OrderUpdate where
  drink : Option String
  size : Option String
  milk : Option String
  shots : Option ℤ
  deriving Repr, DecidableEq

/-- Typed rejections, one per distinct HTTPException raised by the
handlers. -/
inductive ApiError where
  | notFound
  | conflictPreparing
  | conflictPaid
  | conflictNotPaid
  | conflictNotPending
  | badStatus
  | insufficientAmount
  | circuitOpen
  | dbUnavailable
  | paymentBusy
  | paymentUnavailable
  | paymentFailed
  | internalError
  deriving Repr, DecidableEq

/-- HTTP status code each rejection is surfaced with in app.py. -/
def ApiError.statusCode : ApiError → ℕ
  | ApiError.notFound => 404
  | ApiError.conflictPreparing => 409
  | ApiError.conflictPaid => 409
  | ApiError.conflictNotPaid => 409
  | ApiError.conflictNotPending => 409
  | ApiError.badStatus => 400
  | ApiError.insufficientAmount => 400
  | ApiError.circuitOpen => 503
  | ApiError.dbUnavailable => 503
  | ApiError.paymentBusy => 503
  | ApiError.paymentUnavailable => 503
  | ApiError.paymentFailed => 502
  | ApiError.internalError => 500

/-! ### Handlers (app.py endpoints, modelled per order) -/

/-- The Order row built by create_order before commit. -/
def newOrder (req : OrderRequest) (id : ℕ) : Order :=
  { id := id
    drink := req.drink
    size := req.size
    milk := req.milk
    shots := req.shots
    status := "pending"
    cost := calculate_cost req.size req.shots
    paid := false
    card_last_four := none }

/-- create_order (app.py lines 207-233): the only handler that consults
the circuit breaker (require_db_circuit) and the only one that records the
outcome of the database write into it.  saveOk abstracts whether the
commit raises.  Returns the handler result, the breaker after the call,
and whether a database write was attempted. -/
def create_order (cb : CircuitBreaker) (now : ℚ) (req : OrderRequest)
    (newId : ℕ) (saveOk : Bool) :
    Except ApiError Order × CircuitBreaker × Bool :=
  let gate := cb.can_execute now
  if gate.1 = false then (Except.error ApiError.circuitOpen, gate.2, false)
  else if saveOk then
    (Except.ok (newOrder req newId), gate.2.record_success, true)
  else (Except.error ApiError.dbUnavailable, gate.2.record_failure now, true)

/-- Python truthiness applied to an optional string field: the branch
if update.field is taken only for a present, non-empty value. -/
def applyField (cur : String) : Option String → String
  | none => cur
  | some s => if s = "" then cur else s

/-- Python truthiness applied to the optional int field shots: 0 is falsy,
any other integer (negatives included) is truthy. -/
def applyShots (cur : ℤ) : Option ℤ → ℤ
  | none => cur
  | some n => if n = 0 then cur else n

/-- The four conditional field assignments of update_order. -/
def applyUpdate (o : Order) (u : OrderUpdate) : Order :=
  { o with
    drink := applyField o.drink u.drink
    size := applyField o.size u.size
    milk := applyField o.milk u.milk
    shots := applyShots o.shots u.shots }

/-- update_order (app.py lines 256-286): guards, conditional field
assignments, cost recomputation, commit.  The handler never mentions the
circuit breaker; a failing commit propagates as an unhandled exception.
Returns the result and whether a write was attempted. -/
def update_order (o : Order) (u : OrderUpdate) (saveOk : Bool) :
    Except ApiError Order × Bool :=
  if o.status ≠ "pending" then (Except.error ApiError.conflictPreparing, false)
  else if o.paid then (Except.error ApiError.conflictPaid, false)
  else
    let o1 := applyUpdate o u
    let o2 := { o1 with cost := calculate_cost o1.size o1.shots }
    if saveOk then (Except.ok o2, true)
    else (Except.error ApiError.internalError, true)

/-- Python card_number[-4:]: the last four characters, or the whole string
when it is shorter than four. -/
def lastFour (s : String) : String :=
  String.mk (s.data.drop (s.data.length - 4))

/-- Outcome of one pay_order call: the handler result, whether the payment
gateway was contacted, the amount field of the JSON body sent to it, and
whether the database commit ran. -/
structure PayOutcome where
  result : Except ApiError Order
  gatewayCalled : Bool
  gatewayAmount : Option ℚ
  dbCommitted : Bool
  deriving Repr

/-- pay_order (app.py lines 289-329).  Environment abstractions:
bulkheadOk is the result of payment_bulkhead.acquire(), netFail whether
requests.post raises, approved whether the gateway answers 200.  The JSON
body sent to the gateway carries amount = order.cost (line 311), not the
amount submitted by the customer. -/
def pay_order (o : Order) (card : String) (amount : ℚ)
    (bulkheadOk netFail approved : Bool) : PayOutcome :=
  if o.paid then
    { result := Except.ok o, gatewayCalled := false, gatewayAmount := none
      dbCommitted := false }
  else if amount < o.cost then
    { result := Except.error ApiError.insufficientAmount
      gatewayCalled := false, gatewayAmount := none, dbCommitted := false }
  else if bulkheadOk = false then
    { result := Except.error ApiError.paymentBusy
      gatewayCalled := false, gatewayAmount := none, dbCommitted := false }
  else if netFail then
    { result := Except.error ApiError.paymentUnavailable
      gatewayCalled := true, gatewayAmount := some o.cost
      dbCommitted := false }
  else if approved = false then
    { result := Except.error ApiError.paymentFailed
      gatewayCalled := true, gatewayAmount := some o.cost
      dbCommitted := false }
  else
    { result := Except.ok
        { o with paid := true, card_last_four := some (lastFour card) }
      gatewayCalled := true, gatewayAmount := some o.cost
      dbCommitted := true }

/-- The list literal valid_statuses of update_status. -/
def valid_statuses : List String := ["pending", "preparing", "ready", "delivered"]

/-- update_status (app.py lines 371-394): any recognized status value is
accepted, the only state guard is that preparing requires a paid order. -/
def update_status (o : Order) (status : String) : Except ApiError Order :=
  if status ∈ valid_statuses then
    if status = "preparing" ∧ o.paid = false then
      Except.error ApiError.conflictNotPaid
    else Except.ok { o with status := status }
  else Except.error ApiError.badStatus

/-- cancel_order (app.py lines 332-353): deletion guarded by pending and
unpaid. -/
def cancel_order (o : Order) : Except ApiError Unit :=
  if o.status ≠ "pending" then Except.error ApiError.conflictNotPending
  else if o.paid then Except.error ApiError.conflictPaid
  else Except.ok ()

/-! ### Per-order reachability (every mutating endpoint after creation) -/

inductive AppOp where
  | edit (u : OrderUpdate) (saveOk : Bool)
  | pay (card : String) (amount : ℚ) (bulkheadOk netFail approved : Bool)
  | setStatus (s : String)
  | cancel

/-- Effect of one endpoint call on the stored order: a rejected call
leaves the row unchanged, a successful cancel deletes it. -/
def appStep (st : Option Order) (op : AppOp) : Option Order :=
  match st with
  | none => none
  | some o =>
      match op with
      | AppOp.edit u saveOk =>
          match (update_order o u saveOk).1 with
          | Except.ok o2 => some o2
          | Except.error _ => some o
      | AppOp.pay card amount bk nf ap =>
          if (pay_order o card amount bk nf ap).dbCommitted then
            match (pay_order o card amount bk nf ap).result with
            | Except.ok o2 => some o2
            | Except.error _ => some o
          else some o
      | AppOp.setStatus s =>
          match update_status o s with
          | Except.ok o2 => some o2
          | Except.error _ => some o
      | AppOp.cancel =>
          match cancel_order o with
          | Except.ok _ => none
          | Except.error _ => some o

def appRun (st : Option Order) : List AppOp → Option Order
  | [] => st
  | op :: rest => appRun (appStep st op) rest

/-! ### Breaker-threading wrappers for the non-create endpoints

In app.py the breaker db_circuit is a process-wide global; the four
handlers below never read or write it, so running any of them against an
ambient breaker returns that breaker unchanged.  These wrappers make that
fact part of the signature so it can be stated and proved. -/

def update_order_sys (cb : CircuitBreaker) (o : Order) (u : OrderUpdate)
    (saveOk : Bool) : (Except ApiError Order × Bool) × CircuitBreaker :=
  (update_order o u saveOk, cb)

def pay_order_sys (cb : CircuitBreaker) (o : Order) (card : String)
    (amount : ℚ) (bulkheadOk netFail approved : Bool) :
    PayOutcome × CircuitBreaker :=
  (pay_order o card amount bulkheadOk netFail approved, cb)

def update_status_sys (cb : CircuitBreaker) (o : Order) (s : String) :
    Except ApiError Order × CircuitBreaker :=
  (update_status o s, cb)

def cancel_order_sys (cb : CircuitBreaker) (o : Order) :
    Except ApiError Unit × CircuitBreaker :=
  (cancel_order o, cb)

end Restbucks

namespace Restbucks

lemma Bulkhead.step_max (b : Bulkhead) (op : BhOp) :
    (b.step op).max_concurrent = b.max_concurrent := by
  cases op with
  | acquire =>
      simp only [Bulkhead.step, Bulkhead.acquire]
      split
      all_goals rfl
  | release => rfl

lemma Bulkhead.run_max (ops : List BhOp) (b : Bulkhead) :
    (b.run ops).max_concurrent = b.max_concurrent := by
  induction ops generalizing b with
  | nil => rfl
  | cons op rest ih => rw [Bulkhead.run, ih, Bulkhead.step_max]

/-- Core invariant: along a paired trace whose outstanding credit fits the
capacity, the available counter never exceeds the capacity at any prefix. -/
lemma pairedFrom_available_le (ops : List BhOp) (b : Bulkhead) (credit : ℕ)
    (hfit : b.available + credit ≤ b.max_concurrent)
    (hp : pairedFrom b credit ops = true) :
    ∀ n, (b.run (ops.take n)).available ≤ b.max_concurrent := by
  induction ops generalizing b credit with
  | nil =>
      intro n
      simp only [List.take_nil, Bulkhead.run]
      exact le_trans (Nat.le_add_right _ _) hfit
  | cons op rest ih =>
      intro n
      match n with
      | 0 => exact le_trans (Nat.le_add_right _ _) hfit
      | Nat.succ m =>
        rw [List.take_succ_cons, Bulkhead.run]
        cases op with
        | acquire =>
            by_cases hav : 0 < b.available
            · have hstep : b.step BhOp.acquire =
                  ⟨b.max_concurrent, b.available - 1⟩ := by
                simp [Bulkhead.step, Bulkhead.acquire, hav]
              have hp1 : pairedFrom ⟨b.max_concurrent, b.available - 1⟩
                  (credit + 1) rest = true := by
                simpa [pairedFrom, Bulkhead.acquire, hav] using hp
              have hfit1 : (b.available - 1) + (credit + 1) ≤
                  b.max_concurrent := by omega
              have := ih ⟨b.max_concurrent, b.available - 1⟩ (credit + 1)
                hfit1 hp1 m
              simpa [hstep] using this
            · have hstep : b.step BhOp.acquire = b := by
                simp [Bulkhead.step, Bulkhead.acquire, hav]
              have hp1 : pairedFrom b credit rest = true := by
                simpa [pairedFrom, Bulkhead.acquire, hav] using hp
              rw [hstep]
              exact ih b credit hfit hp1 m
        | release =>
            have hc : ¬ credit = 0 := by
              intro h0
              simp [pairedFrom, h0] at hp
            have hp1 : pairedFrom b.release (credit - 1) rest = true := by
              simpa [pairedFrom, hc] using hp
            have hfit1 : b.release.available + (credit - 1) ≤
                b.release.max_concurrent := by
              simp only [Bulkhead.release]
              omega
            have hstep : b.step BhOp.release = b.release := rfl
            rw [hstep]
            exact ih b.release (credit - 1) hfit1 hp1 m

lemma basePrice_small : basePrice "small" = 5/2 := rfl

lemma basePrice_medium : basePrice "medium" = 3 := rfl

lemma basePrice_large : basePrice "large" = 7/2 := rfl

lemma calculate_cost_medium_zero : calculate_cost "medium" 0 = 5/2 := by
  unfold calculate_cost
  rw [basePrice_medium]
  norm_num

lemma claimedCost_medium_zero : claimedCost "medium" 0 = 3 := by
  unfold claimedCost
  rw [basePrice_medium, max_eq_left (by omega : (0 : ℤ) - 1 ≤ 0)]
  norm_num

lemma runFailures_opened (ts : List ℚ) :
    ∀ cb : CircuitBreaker, ts ≠ [] →
      cb.failure_threshold ≤ cb.failures + ts.length →
      (cb.runFailures ts).state = CBState.opened := by
  induction ts with
  | nil =>
      intro cb hne _
      exact absurd rfl hne
  | cons t rest ih =>
      intro cb _ hth
      rw [CircuitBreaker.runFailures]
      cases rest with
      | nil =>
          have hc : cb.failure_threshold ≤ cb.failures + 1 := by
            simpa using hth
          simp [CircuitBreaker.runFailures, CircuitBreaker.record_failure,
            hc]
      | cons t2 rest2 =>
          apply ih
          · simp
          · simp only [CircuitBreaker.record_failure,
              List.length_cons] at hth ⊢
            omega

lemma runFailures_closed (ts : List ℚ) :
    ∀ cb : CircuitBreaker, cb.state = CBState.closed →
      cb.failures + ts.length < cb.failure_threshold →
      (cb.runFailures ts).state = CBState.closed := by
  induction ts with
  | nil =>
      intro cb hst _
      exact hst
  | cons t rest ih =>
      intro cb hst hlt
      rw [CircuitBreaker.runFailures]
      have hc : ¬ (cb.failure_threshold ≤ cb.failures + 1) := by
        simp only [List.length_cons] at hlt
        omega
      apply ih
      · simp [CircuitBreaker.record_failure, hc, hst]
      · simp only [CircuitBreaker.record_failure, List.length_cons] at hlt ⊢
        omega

lemma can_execute_state_inv (cb : CircuitBreaker) (now : ℚ)
    (h : CBInv cb) : CBInv (cb.can_execute now).2 := by
  unfold CircuitBreaker.can_execute
  cases hst : cb.state with
  | closed =>
      simp only
      exact h
  | opened =>
      cases hl : cb.last_failure_time with
      | none =>
          simp only
          exact h
      | some t =>
          simp only
          split
          · intro _
            exact ⟨(h (Or.inl hst)).1, by simp⟩
          · exact h
  | halfOpen =>
      simp only
      exact h

lemma record_success_inv (cb : CircuitBreaker) :
    CBInv cb.record_success := by
  intro hp
  rcases hp with hp | hp <;> simp [CircuitBreaker.record_success] at hp

lemma record_failure_inv (cb : CircuitBreaker) (now : ℚ) (h : CBInv cb) :
    CBInv (cb.record_failure now) := by
  intro hp
  refine ⟨?_, by simp [CircuitBreaker.record_failure]⟩
  simp only [CircuitBreaker.record_failure] at hp ⊢
  by_cases hc : cb.failure_threshold ≤ cb.failures + 1
  · exact hc
  · rw [if_neg hc] at hp
    have h1 := (h hp).1
    omega

lemma runOps_inv (ops : List CBOp) :
    ∀ cb : CircuitBreaker, CBInv cb → CBInv (cb.runOps ops) := by
  induction ops with
  | nil =>
      intro cb h
      exact h
  | cons op rest ih =>
      intro cb h
      rw [CircuitBreaker.runOps]
      apply ih
      cases op with
      | canExec now => exact can_execute_state_inv cb now h
      | recSuccess => exact record_success_inv cb
      | recFailure now => exact record_failure_inv cb now h

lemma CBInv_init (th : ℕ) (rt : ℚ) : CBInv (CircuitBreaker.init th rt) := by
  intro hp
  rcases hp with hp | hp <;> simp [CircuitBreaker.init] at hp

lemma rlRun_append (l1 l2 : List ℚ) :
    ∀ st, rlRun st (l1 ++ l2)
      = ((rlRun st l1).1 ++ (rlRun (rlRun st l1).2 l2).1,
         (rlRun (rlRun st l1).2 l2).2) := by
  induction l1 with
  | nil =>
      intro st
      simp [rlRun]
  | cons t rest ih =>
      intro st
      simp only [List.cons_append, rlRun]
      rw [List.append_eq, ih]

lemma rlRun_cons (st : Option (ℕ × ℚ)) (t : ℚ) (rest : List ℚ) :
    rlRun st (t :: rest)
      = ((check_rate_limit st t).1 ::
          (rlRun (check_rate_limit st t).2 rest).1,
         (rlRun (check_rate_limit st t).2 rest).2) := rfl

lemma rlRun_live (ts : List ℚ) :
    ∀ (c : ℕ) (e : ℚ), (∀ t ∈ ts, t < e) →
      rlRun (some (c, e)) ts
        = ((List.range ts.length).map
            (fun i => decide (c + i < RATE_LIMIT)),
           some (c + ts.length, e)) := by
  induction ts with
  | nil =>
      intro c e _
      simp [rlRun]
  | cons t rest ih =>
      intro c e h
      have ht : t < e := h t (List.mem_cons_self _ _)
      have hrest : ∀ x ∈ rest, x < e := fun x hx =>
        h x (List.mem_cons_of_mem _ hx)
      simp only [rlRun, check_rate_limit]
      rw [if_pos ht, ih (c + 1) e hrest]
      have hf : ((fun i => decide (c + i < RATE_LIMIT)) ∘ Nat.succ)
          = (fun i => decide (c + 1 + i < RATE_LIMIT)) := by
        funext i
        simp only [Function.comp_apply]
        rw [decide_eq_decide]
        omega
      have hlen : c + 1 + rest.length = c + (rest.length + 1) := by omega
      rw [List.length_cons, List.range_succ_eq_map, List.map_cons,
        List.map_map, hf, hlen]
      rfl

lemma admit_pattern (n : ℕ) :
    true :: (List.range n).map (fun i => decide (1 + i < RATE_LIMIT))
      = (List.range (n + 1)).map (fun i => decide (i < RATE_LIMIT)) := by
  rw [List.range_succ_eq_map, List.map_cons, List.map_map]
  have hf : ((fun i => decide (i < RATE_LIMIT)) ∘ Nat.succ)
      = (fun i => decide (1 + i < RATE_LIMIT)) := by
    funext i
    simp only [Function.comp_apply]
    rw [decide_eq_decide]
    omega
  rw [hf]
  rfl

lemma update_order_ok (o : Order) (u : OrderUpdate) (saveOk : Bool)
    (r : Order) (h : (update_order o u saveOk).1 = Except.ok r) :
    r.status = o.status ∧ r.paid = o.paid ∧ o.status = "pending" := by
  unfold update_order at h
  split_ifs at h with hs hp hsave
  dsimp only at h
  injection h with h
  rw [← h]
  exact ⟨rfl, rfl, not_ne_iff.mp hs⟩

lemma pay_order_committed (o : Order) (card : String) (amount : ℚ)
    (bk nf ap : Bool)
    (h : (pay_order o card amount bk nf ap).dbCommitted = true) :
    pay_order o card amount bk nf ap
      = { result := Except.ok
            { o with paid := true
                     card_last_four := some (lastFour card) }
          gatewayCalled := true, gatewayAmount := some o.cost
          dbCommitted := true } := by
  unfold pay_order at h ⊢
  split_ifs at h ⊢
  rfl

lemma update_status_ok (o : Order) (s : String) (o2 : Order)
    (h : update_status o s = Except.ok o2) :
    o2 = { o with status := s } ∧ (s = "preparing" → o.paid = true) := by
  unfold update_status at h
  by_cases hv : s ∈ valid_statuses
  · by_cases hc : s = "preparing" ∧ o.paid = false
    · rw [if_pos hv, if_pos hc] at h
      exact absurd h (by simp)
    · rw [if_pos hv, if_neg hc] at h
      injection h with h
      refine ⟨h.symm, ?_⟩
      intro hs
      cases hpb : o.paid with
      | false => exact absurd ⟨hs, hpb⟩ hc
      | true => rfl
  · rw [if_neg hv] at h
    exact absurd h (by simp)

lemma appStep_inv (o : Order) (op : AppOp) (o2 : Order)
    (hInv : o.status = "preparing" → o.paid = true)
    (h : appStep (some o) op = some o2) :
    o2.status = "preparing" → o2.paid = true := by
  cases op with
  | edit u saveOk =>
      simp only [appStep] at h
      cases hr : (update_order o u saveOk).1 with
      | ok r =>
          rw [hr] at h
          injection h with h
          obtain ⟨hst, hpd, hpend⟩ := update_order_ok o u saveOk r hr
          intro hpre
          rw [← h] at hpre
          rw [hst, hpend] at hpre
          exact absurd hpre (by simp)
      | error e =>
          rw [hr] at h
          injection h with h
          rw [← h]
          exact hInv
  | pay card amount bk nf ap =>
      simp only [appStep] at h
      by_cases hcom : (pay_order o card amount bk nf ap).dbCommitted = true
      · rw [if_pos hcom, pay_order_committed o card amount bk nf ap hcom]
          at h
        simp only at h
        injection h with h
        intro _
        rw [← h]
      · rw [if_neg hcom] at h
        injection h with h
        rw [← h]
        exact hInv
  | setStatus s =>
      simp only [appStep] at h
      cases hr : update_status o s with
      | ok r =>
          rw [hr] at h
          injection h with h
          obtain ⟨hro, hprep⟩ := update_status_ok o s r hr
          intro hpre
          rw [← h, hro] at hpre
          simp only at hpre
          rw [← h, hro]
          simp only
          exact hprep hpre
      | error e =>
          rw [hr] at h
          injection h with h
          rw [← h]
          exact hInv
  | cancel =>
      simp only [appStep] at h
      cases hr : cancel_order o with
      | ok r =>
          rw [hr] at h
          simp at h
      | error e =>
          rw [hr] at h
          injection h with h
          rw [← h]
          exact hInv

lemma appRun_inv (ops : List AppOp) :
    ∀ st : Option Order,
      (∀ o, st = some o → (o.status = "preparing" → o.paid = true)) →
      ∀ o2, appRun st ops = some o2 →
        (o2.status = "preparing" → o2.paid = true) := by
  induction ops with
  | nil =>
      intro st hst o2 h
      exact hst o2 h
  | cons op rest ih =>
      intro st hst o2 h
      rw [appRun] at h
      refine ih (appStep st op) ?_ o2 h
      intro o3 h3
      cases st with
      | none => simp [appStep] at h3
      | some o => exact appStep_inv o op o3 (hst o rfl) h3

lemma appStep_paid_mono (o : Order) (op : AppOp) (o2 : Order)
    (h : appStep (some o) op = some o2) (hp : o.paid = true) :
    o2.paid = true := by
  cases op with
  | edit u saveOk =>
      simp only [appStep] at h
      cases hr : (update_order o u saveOk).1 with
      | ok r =>
          rw [hr] at h
          injection h with h
          obtain ⟨_, hpd, _⟩ := update_order_ok o u saveOk r hr
          rw [← h, hpd]
          exact hp
      | error e =>
          rw [hr] at h
          injection h with h
          rw [← h]
          exact hp
  | pay card amount bk nf ap =>
      simp only [appStep] at h
      by_cases hcom : (pay_order o card amount bk nf ap).dbCommitted = true
      · rw [if_pos hcom, pay_order_committed o card amount bk nf ap hcom]
          at h
        simp only at h
        injection h with h
        rw [← h]
      · rw [if_neg hcom] at h
        injection h with h
        rw [← h]
        exact hp
  | setStatus s =>
      simp only [appStep] at h
      cases hr : update_status o s with
      | ok r =>
          rw [hr] at h
          injection h with h
          obtain ⟨hro, _⟩ := update_status_ok o s r hr
          rw [← h, hro]
          exact hp
      | error e =>
          rw [hr] at h
          injection h with h
          rw [← h]
          exact hp
  | cancel =>
      simp only [appStep] at h
      cases hr : cancel_order o with
      | ok r =>
          rw [hr] at h
          simp at h
      | error e =>
          rw [hr] at h
          injection h with h
          rw [← h]
          exact hp

lemma applyUpdate_falsy (o : Order) (u : OrderUpdate)
    (hd : u.drink = none ∨ u.drink = some "")
    (hz : u.size = none ∨ u.size = some "")
    (hm : u.milk = none ∨ u.milk = some "")
    (hn : u.shots = none ∨ u.shots = some 0) :
    applyUpdate o u = o := by
  rcases hd with hd | hd <;> rcases hz with hz | hz <;>
    rcases hm with hm | hm <;> rcases hn with hn | hn <;>
    simp [applyUpdate, applyField, applyShots, hd, hz, hm, hn]

end Restbucks

/-- C1 counterexample: on the code as written, a release with no prior
successful acquire drives inFlight negative, because threading.Semaphore
accepts releases beyond the initial value.  With capacity 3, the trace
consisting of a single release leaves inFlight = -1, refuting the claim
that inFlight never goes negative even for unpaired releases. -/
theorem C1_unpaired_release_negative_inflight :
    ((Restbucks.Bulkhead.init 3).run [Restbucks.BhOp.release]).inFlight = -1 ∧
    ¬ (0 ≤ ((Restbucks.Bulkhead.init 3).run
        [Restbucks.BhOp.release]).inFlight) := by
  constructor <;> decide

/-- C1 (amended): for every trace of tryAcquire/release calls in which each
release is paired with a prior successful acquire (the discipline the spec
imposes via scoped acquisition), the number of in-flight permits stays
between 0 and the capacity at every prefix of the trace; the upper bound
inFlight less-or-equal capacity needs no pairing hypothesis at all. -/
theorem C1_bulkhead_inflight_bounds (c : ℕ) (ops : List Restbucks.BhOp)
    (hp : Restbucks.paired c ops = true) :
    ∀ n, 0 ≤ ((Restbucks.Bulkhead.init c).run (ops.take n)).inFlight ∧
      ((Restbucks.Bulkhead.init c).run (ops.take n)).inFlight ≤ c := by
  intro n
  have hmax : ((Restbucks.Bulkhead.init c).run (ops.take n)).max_concurrent
      = c := Restbucks.Bulkhead.run_max _ _
  constructor
  · have hav : ((Restbucks.Bulkhead.init c).run (ops.take n)).available ≤
        c := by
      have := Restbucks.pairedFrom_available_le ops
        (Restbucks.Bulkhead.init c) 0 (by simp [Restbucks.Bulkhead.init]) hp n
      simpa [Restbucks.Bulkhead.init] using this
    simp only [Restbucks.Bulkhead.inFlight, hmax, sub_nonneg]
    exact_mod_cast hav
  · simp only [Restbucks.Bulkhead.inFlight, hmax]
    have : (0 : ℤ) ≤
        ((Restbucks.Bulkhead.init c).run (ops.take n)).available :=
      Int.natCast_nonneg _
    omega

/-- C1 witness: a concrete paired trace on capacity 3 satisfying the
amended bounds at prefix length 1. -/
theorem C1_bulkhead_inflight_bounds_witness :
    Restbucks.paired 3 [Restbucks.BhOp.acquire, Restbucks.BhOp.release]
        = true ∧
    (0 ≤ ((Restbucks.Bulkhead.init 3).run
        ([Restbucks.BhOp.acquire, Restbucks.BhOp.release].take 1)).inFlight ∧
      ((Restbucks.Bulkhead.init 3).run
        ([Restbucks.BhOp.acquire, Restbucks.BhOp.release].take 1)).inFlight
        ≤ 3) :=
  ⟨by decide, C1_bulkhead_inflight_bounds 3 _ (by decide) 1⟩

/-- C7 counterexample: the source computes base.get(size, 3.00) +
(shots - 1) * 0.50 with no clamping, and pydantic accepts any int for
shots, so at shots = 0 the code yields basePrice - 0.50 where the claimed
formula with max(0, shots-1) yields basePrice: a medium drink with 0 shots
costs 2.50 in the code, 3.00 by the claim. -/
theorem C7_cost_formula_counterexample :
    Restbucks.calculate_cost "medium" 0 ≠ Restbucks.claimedCost "medium" 0 ∧
    Restbucks.calculate_cost "medium" 0 = 5/2 ∧
    Restbucks.claimedCost "medium" 0 = 3 := by
  refine ⟨?_, Restbucks.calculate_cost_medium_zero,
    Restbucks.claimedCost_medium_zero⟩
  rw [Restbucks.calculate_cost_medium_zero, Restbucks.claimedCost_medium_zero]
  norm_num

/-- C7 (amended): basePrice maps small to 2.50, medium to 3.00, large to
3.50 and any unrecognized size to 3.00, and for every size and every
shots value of at least 1 the computed cost equals
basePrice(size) + max(0, shots-1) * 0.50; without the restriction to
shots at least 1 the clamped formula does not hold (the code subtracts
0.50 per missing shot below one). -/
theorem C7_cost_formula :
    (Restbucks.basePrice "small" = 5/2 ∧ Restbucks.basePrice "medium" = 3 ∧
      Restbucks.basePrice "large" = 7/2) ∧
    (∀ size : String, size ≠ "small" → size ≠ "medium" → size ≠ "large" →
      Restbucks.basePrice size = 3) ∧
    (∀ (size : String) (shots : ℤ), 1 ≤ shots →
      Restbucks.calculate_cost size shots = Restbucks.claimedCost size shots)
    := by
  refine ⟨⟨Restbucks.basePrice_small, Restbucks.basePrice_medium,
    Restbucks.basePrice_large⟩, ?_, ?_⟩
  · intro size h1 h2 h3
    simp [Restbucks.basePrice, h1, h2, h3]
  · intro size shots h
    unfold Restbucks.calculate_cost Restbucks.claimedCost
    rw [max_eq_right (by omega : (0 : ℤ) ≤ shots - 1)]
    push_cast
    ring

/-- C7 witness: the end-to-end example, a large drink with 2 shots costs
3.50 + 0.50 = 4.00 under both formulas. -/
theorem C7_cost_formula_witness :
    Restbucks.calculate_cost "large" 2 = Restbucks.claimedCost "large" 2 ∧
    Restbucks.calculate_cost "large" 2 = 4 :=
  ⟨C7_cost_formula.2.2 "large" 2 (by decide),
    by
      unfold Restbucks.calculate_cost
      rw [Restbucks.basePrice_large]
      norm_num⟩

/-- C3 counterexample: update_status never checks adjacency, so a pending
unpaid order can be moved directly to delivered (skipping two steps), and
a delivered order can be moved back to pending, both of which the claim
says are always rejected. -/
theorem C3_status_skip_counterexample :
    Restbucks.update_status
        { id := 1, drink := "latte", size := "medium", milk := "whole",
          shots := 1, status := "pending", cost := 3, paid := false,
          card_last_four := none } "delivered"
      = Except.ok
        { id := 1, drink := "latte", size := "medium", milk := "whole",
          shots := 1, status := "delivered", cost := 3, paid := false,
          card_last_four := none } ∧
    Restbucks.update_status
        { id := 1, drink := "latte", size := "medium", milk := "whole",
          shots := 1, status := "delivered", cost := 3, paid := false,
          card_last_four := none } "pending"
      = Except.ok
        { id := 1, drink := "latte", size := "medium", milk := "whole",
          shots := 1, status := "pending", cost := 3, paid := false,
          card_last_four := none } := by
  exact ⟨rfl, rfl⟩

/-- C3 (amended): a status update succeeds exactly when the target is one
of the four recognized values and, if the target is preparing, the order
is paid; adjacency and direction are never checked, so forward skips and
backward moves are accepted.  A successful update sets exactly the status
field; a rejected one returns an error and changes nothing. -/
theorem C3_update_status_characterization (o : Restbucks.Order)
    (s : String) :
    ((∃ o2, Restbucks.update_status o s = Except.ok o2) ↔
      (s ∈ Restbucks.valid_statuses ∧ (s = "preparing" → o.paid = true))) ∧
    (∀ o2, Restbucks.update_status o s = Except.ok o2 →
      o2 = { o with status := s }) := by
  constructor
  · constructor
    · rintro ⟨o2, h2⟩
      unfold Restbucks.update_status at h2
      by_cases hv : s ∈ Restbucks.valid_statuses
      · by_cases hc : s = "preparing" ∧ o.paid = false
        · rw [if_pos hv, if_pos hc] at h2
          exact absurd h2 (by simp)
        · refine ⟨hv, ?_⟩
          intro hs
          cases hpb : o.paid with
          | false => exact absurd ⟨hs, hpb⟩ hc
          | true => rfl
      · rw [if_neg hv] at h2
        exact absurd h2 (by simp)
    · rintro ⟨hv, hp⟩
      refine ⟨{ o with status := s }, ?_⟩
      unfold Restbucks.update_status
      have hnp : ¬ (s = "preparing" ∧ o.paid = false) := by
        rintro ⟨hs, hpb⟩
        rw [hp hs] at hpb
        exact Bool.noConfusion hpb
      rw [if_pos hv, if_neg hnp]
  · intro o2 h2
    unfold Restbucks.update_status at h2
    by_cases hv : s ∈ Restbucks.valid_statuses
    · by_cases hc : s = "preparing" ∧ o.paid = false
      · rw [if_pos hv, if_pos hc] at h2
        exact absurd h2 (by simp)
      · rw [if_pos hv, if_neg hc] at h2
        injection h2 with h
        exact h.symm
    · rw [if_neg hv] at h2
      exact absurd h2 (by simp)

/-- C3 witness: on a concrete paid pending order the characterization
admits the transition to preparing. -/
theorem C3_update_status_characterization_witness :
    ∃ o2, Restbucks.update_status
        { id := 1, drink := "latte", size := "medium", milk := "whole",
          shots := 1, status := "pending", cost := 3, paid := true,
          card_last_four := none } "preparing" = Except.ok o2 :=
  (C3_update_status_characterization _ "preparing").1.mpr
    ⟨by decide, fun _ => rfl⟩

/-- C10: the update handler applies a provided field only when its value
is Python-truthy, so a request whose fields are all either absent, the
empty string, or shots = 0 succeeds on a pending unpaid order, leaves
every attribute unchanged, and recomputes cost from the unchanged size
and shots. -/
theorem C10_falsy_update_ignored (o : Restbucks.Order)
    (u : Restbucks.OrderUpdate)
    (hs : o.status = "pending") (hp : o.paid = false)
    (hd : u.drink = none ∨ u.drink = some "")
    (hz : u.size = none ∨ u.size = some "")
    (hm : u.milk = none ∨ u.milk = some "")
    (hn : u.shots = none ∨ u.shots = some 0) :
    Restbucks.update_order o u true
      = (Except.ok
          { o with cost := Restbucks.calculate_cost o.size o.shots },
         true) := by
  have ha := Restbucks.applyUpdate_falsy o u hd hz hm hn
  simp [Restbucks.update_order, hs, hp, ha]

/-- C10 witness: a concrete pending unpaid order updated with shots = 0
and empty strings for the other fields comes back unchanged with its cost
recomputed. -/
theorem C10_falsy_update_ignored_witness :
    Restbucks.update_order
        { id := 1, drink := "latte", size := "medium", milk := "whole",
          shots := 1, status := "pending", cost := 3, paid := false,
          card_last_four := none }
        { drink := some "", size := some "", milk := some "",
          shots := some 0 } true
      = (Except.ok
          { id := 1, drink := "latte", size := "medium", milk := "whole",
            shots := 1, status := "pending",
            cost := Restbucks.calculate_cost "medium" 1, paid := false,
            card_last_four := none },
         true) :=
  C10_falsy_update_ignored _ _ rfl rfl (Or.inr rfl) (Or.inr rfl)
    (Or.inr rfl) (Or.inr rfl)

/-- C9: whenever pay_order contacts the payment gateway, the amount field
of the request body is the stored order cost, never the customer-submitted
amount; in particular an overpayment is not forwarded. -/
theorem C9_gateway_amount_is_cost (o : Restbucks.Order) (card : String)
    (amount : ℚ) (bk nf ap : Bool)
    (hp : o.paid = false) (hlt : o.cost < amount) :
    ((Restbucks.pay_order o card amount bk nf ap).gatewayCalled = true →
      (Restbucks.pay_order o card amount bk nf ap).gatewayAmount
        = some o.cost) ∧
    (Restbucks.pay_order o card amount bk nf ap).gatewayAmount
      ≠ some amount := by
  have h1 : ¬ (o.paid = true) := by simp [hp]
  have h2 : ¬ (amount < o.cost) := not_lt.mpr hlt.le
  have hne : o.cost ≠ amount := ne_of_lt hlt
  unfold Restbucks.pay_order
  rw [if_neg h1, if_neg h2]
  cases bk <;> cases nf <;> cases ap <;> simp [hne]

/-- C9 witness: an order costing 3 paid with 4 sends amount 3 to the
gateway. -/
theorem C9_gateway_amount_is_cost_witness :
    ((Restbucks.pay_order
        { id := 1, drink := "latte", size := "medium", milk := "whole",
          shots := 1, status := "pending", cost := 3, paid := false,
          card_last_four := none } "1234567890123456" 4 true false
        true).gatewayCalled = true →
      (Restbucks.pay_order
        { id := 1, drink := "latte", size := "medium", milk := "whole",
          shots := 1, status := "pending", cost := 3, paid := false,
          card_last_four := none } "1234567890123456" 4 true false
        true).gatewayAmount = some 3) ∧
    (Restbucks.pay_order
        { id := 1, drink := "latte", size := "medium", milk := "whole",
          shots := 1, status := "pending", cost := 3, paid := false,
          card_last_four := none } "1234567890123456" 4 true false
        true).gatewayAmount ≠ some 4 :=
  C9_gateway_amount_is_cost _ "1234567890123456" 4 true false true rfl
    (by norm_num)

/-- C5: paying an already-paid order succeeds and returns it unchanged
(card_last_four included) without contacting the gateway or writing the
database; hence a first successful payment followed by a second attempt
flips paid exactly once, and the second call is a pure read-back. -/
theorem C5_pay_idempotent (o : Restbucks.Order) (card card2 : String)
    (amount amount2 : ℚ) (bk2 nf2 ap2 : Bool)
    (hp : o.paid = false) (hv : o.cost ≤ amount) :
    ((Restbucks.pay_order o card amount true false true).result
        = Except.ok { o with paid := true, card_last_four := some (Restbucks.lastFour card) } ∧
      (Restbucks.pay_order o card amount true false true).gatewayCalled
        = true ∧
      (Restbucks.pay_order o card amount true false true).dbCommitted
        = true) ∧
    Restbucks.pay_order
        { o with paid := true, card_last_four := some (Restbucks.lastFour card) }
        card2 amount2 bk2 nf2 ap2
      = { result := Except.ok { o with paid := true, card_last_four := some (Restbucks.lastFour card) }
          gatewayCalled := false, gatewayAmount := none
          dbCommitted := false } := by
  have h1 : ¬ (o.paid = true) := by simp [hp]
  have h2 : ¬ (amount < o.cost) := not_lt.mpr hv
  constructor
  · unfold Restbucks.pay_order
    rw [if_neg h1, if_neg h2]
    exact ⟨rfl, rfl, rfl⟩
  · rfl

/-- C5 witness: concrete double payment of an order costing 3 with
amount 4. -/
theorem C5_pay_idempotent_witness :
    ((Restbucks.pay_order
        { id := 1, drink := "latte", size := "medium", milk := "whole",
          shots := 1, status := "pending", cost := 3, paid := false,
          card_last_four := none } "1234567890123456" 4 true false
        true).result
      = Except.ok
        { id := 1, drink := "latte", size := "medium", milk := "whole",
          shots := 1, status := "pending", cost := 3, paid := true,
          card_last_four :=
            some (Restbucks.lastFour "1234567890123456") } ∧
      (Restbucks.pay_order
        { id := 1, drink := "latte", size := "medium", milk := "whole",
          shots := 1, status := "pending", cost := 3, paid := false,
          card_last_four := none } "1234567890123456" 4 true false
        true).gatewayCalled = true ∧
      (Restbucks.pay_order
        { id := 1, drink := "latte", size := "medium", milk := "whole",
          shots := 1, status := "pending", cost := 3, paid := false,
          card_last_four := none } "1234567890123456" 4 true false
        true).dbCommitted = true) ∧
    Restbucks.pay_order
        { id := 1, drink := "latte", size := "medium", milk := "whole",
          shots := 1, status := "pending", cost := 3, paid := true,
          card_last_four := some (Restbucks.lastFour "1234567890123456") }
        "9999000011112222" 100 false true false
      = { result := Except.ok
            { id := 1, drink := "latte", size := "medium", milk := "whole",
              shots := 1, status := "pending", cost := 3, paid := true,
              card_last_four :=
                some (Restbucks.lastFour "1234567890123456") },
          gatewayCalled := false, gatewayAmount := none,
          dbCommitted := false } :=
  C5_pay_idempotent
    { id := 1, drink := "latte", size := "medium", milk := "whole",
      shots := 1, status := "pending", cost := 3, paid := false,
      card_last_four := none }
    "1234567890123456" "9999000011112222" 4 100 false true false rfl
    (by norm_num)

/-- C4: for one client key with limit 10 and window 60, a first request
at time t0 opens a window expiring at t0 + 60; within that window exactly
the first 10 requests are admitted (the 11th and all later ones are
rejected), and a request at or after the expiry starts a fresh window in
which again exactly the first 10 requests are admitted. -/
theorem C4_rate_limiter_windows (t0 t1 : ℚ) (ts ts2 : List ℚ)
    (h1 : ∀ t ∈ ts, t < t0 + Restbucks.RATE_WINDOW)
    (h2 : t0 + Restbucks.RATE_WINDOW ≤ t1)
    (h3 : ∀ t ∈ ts2, t < t1 + Restbucks.RATE_WINDOW) :
    (Restbucks.rlRun none (t0 :: (ts ++ t1 :: ts2))).1
      = (List.range (ts.length + 1)).map
          (fun i => decide (i < Restbucks.RATE_LIMIT))
        ++ (List.range (ts2.length + 1)).map
          (fun i => decide (i < Restbucks.RATE_LIMIT)) := by
  have hc0 : Restbucks.check_rate_limit none t0
      = (true, some (1, t0 + Restbucks.RATE_WINDOW)) := rfl
  have hc1 : Restbucks.check_rate_limit
      (some (1 + ts.length, t0 + Restbucks.RATE_WINDOW)) t1
      = (true, some (1, t1 + Restbucks.RATE_WINDOW)) := by
    simp only [Restbucks.check_rate_limit]
    rw [if_neg (not_lt.mpr h2)]
    exact rfl
  rw [Restbucks.rlRun_cons, hc0]
  dsimp only
  rw [Restbucks.rlRun_append]
  dsimp only
  rw [Restbucks.rlRun_live ts 1 (t0 + Restbucks.RATE_WINDOW) h1]
  dsimp only
  rw [Restbucks.rlRun_cons, hc1]
  dsimp only
  rw [Restbucks.rlRun_live ts2 1 (t1 + Restbucks.RATE_WINDOW) h3]
  dsimp only
  rw [← List.cons_append, Restbucks.admit_pattern, Restbucks.admit_pattern]

/-- C4 witness: twelve requests at times 0 and 1 inside one window admit
exactly the first ten; a later request at time 61 (past the expiry 60)
is admitted again. -/
theorem C4_rate_limiter_windows_witness :
    (Restbucks.rlRun none
        (0 :: ([1, 1, 1, 1, 1, 1, 1, 1, 1, 1, 1] ++ 61 :: []))).1
      = (List.range 12).map (fun i => decide (i < Restbucks.RATE_LIMIT))
        ++ (List.range 1).map
          (fun i => decide (i < Restbucks.RATE_LIMIT)) :=
  C4_rate_limiter_windows 0 61 [1, 1, 1, 1, 1, 1, 1, 1, 1, 1, 1] []
    (by
      intro t ht
      simp at ht
      rw [ht]
      norm_num [Restbucks.RATE_WINDOW])
    (by norm_num [Restbucks.RATE_WINDOW])
    (by
      intro t ht
      simp at ht)

/-- C6: starting from a freshly created order (status pending, unpaid),
no sequence of edit/pay/status-update/cancel calls can reach a state with
status preparing and paid false: moving to preparing on an unpaid order
is rejected with the NotPaid conflict, every other operation preserves
the implication, and paid never reverts to false. -/
theorem C6_preparing_implies_paid :
    (∀ (req : Restbucks.OrderRequest) (newId : ℕ)
        (ops : List Restbucks.AppOp) (o : Restbucks.Order),
      Restbucks.appRun (some (Restbucks.newOrder req newId)) ops
        = some o →
      o.status = "preparing" → o.paid = true) ∧
    (∀ o : Restbucks.Order, o.paid = false →
      Restbucks.update_status o "preparing"
        = Except.error Restbucks.ApiError.conflictNotPaid) ∧
    (∀ (o : Restbucks.Order) (op : Restbucks.AppOp)
        (o2 : Restbucks.Order),
      Restbucks.appStep (some o) op = some o2 → o.paid = true →
      o2.paid = true) := by
  refine ⟨?_, ?_, ?_⟩
  · intro req newId ops o h
    refine Restbucks.appRun_inv ops _ ?_ o h
    intro o3 h3
    injection h3 with h3
    rw [← h3]
    intro hpre
    exact absurd hpre (by simp [Restbucks.newOrder])
  · intro o hp
    unfold Restbucks.update_status
    rw [if_pos (by decide), if_pos ⟨rfl, hp⟩]
  · intro o op o2 h hp
    exact Restbucks.appStep_paid_mono o op o2 h hp

/-- C6 witness: a concrete order paid then moved to preparing ends paid;
the same move on an unpaid order is rejected; and a status advance keeps
paid true. -/
theorem C6_preparing_implies_paid_witness :
    ({ id := 1, drink := "latte", size := "medium", milk := "whole",
       shots := 1, status := "preparing",
       cost := Restbucks.calculate_cost "medium" 1, paid := true,
       card_last_four := some (Restbucks.lastFour "1234567890123456") } :
        Restbucks.Order).paid = true ∧
    Restbucks.update_status
        { id := 1, drink := "latte", size := "medium", milk := "whole",
          shots := 1, status := "pending", cost := 3, paid := false,
          card_last_four := none } "preparing"
      = Except.error Restbucks.ApiError.conflictNotPaid ∧
    ({ id := 1, drink := "latte", size := "medium", milk := "whole",
       shots := 1, status := "ready", cost := 3, paid := true,
       card_last_four := none } : Restbucks.Order).paid = true :=
  ⟨C6_preparing_implies_paid.1
      { drink := "latte", size := "medium", milk := "whole", shots := 1 }
      1
      [Restbucks.AppOp.pay "1234567890123456" 100 true false true,
        Restbucks.AppOp.setStatus "preparing"]
      _
      (by
        have hcost : Restbucks.calculate_cost "medium" 1 = 3 := by
          unfold Restbucks.calculate_cost
          rw [Restbucks.basePrice_medium]
          norm_num
        have hlt : ¬ ((100 : ℚ) < 3) := by norm_num
        simp [Restbucks.appRun, Restbucks.appStep, Restbucks.pay_order,
          Restbucks.newOrder, Restbucks.update_status,
          Restbucks.valid_statuses, hcost, hlt])
      rfl,
    C6_preparing_implies_paid.2.1
      { id := 1, drink := "latte", size := "medium", milk := "whole",
        shots := 1, status := "pending", cost := 3, paid := false,
        card_last_four := none } rfl,
    C6_preparing_implies_paid.2.2
      { id := 1, drink := "latte", size := "medium", milk := "whole",
        shots := 1, status := "preparing", cost := 3, paid := true,
        card_last_four := none }
      (Restbucks.AppOp.setStatus "ready")
      { id := 1, drink := "latte", size := "medium", milk := "whole",
        shots := 1, status := "ready", cost := 3, paid := true,
        card_last_four := none }
      rfl rfl⟩

/-- C8 counterexample: with the database breaker open (threshold 3,
3 recorded failures at time 0, timeout 10, clock 5) the breaker rejects
execution, yet the edit endpoint still runs: it attempts the write and
succeeds instead of failing fast, and when the write fails the breaker is
left untouched (failures stay 3), so the store error is never recorded. -/
theorem C8_unguarded_write_counterexample :
    ((⟨3, 10, 3, Restbucks.CBState.opened, some 0⟩ :
        Restbucks.CircuitBreaker).can_execute 5).1 = false ∧
    (Restbucks.update_order_sys
        ⟨3, 10, 3, Restbucks.CBState.opened, some 0⟩
        { id := 1, drink := "latte", size := "medium", milk := "whole",
          shots := 1, status := "pending", cost := 3, paid := false,
          card_last_four := none }
        { drink := none, size := none, milk := none, shots := none }
        true).1.1
      = Except.ok
          { id := 1, drink := "latte", size := "medium", milk := "whole",
            shots := 1, status := "pending",
            cost := Restbucks.calculate_cost "medium" 1, paid := false,
            card_last_four := none } ∧
    (Restbucks.update_order_sys
        ⟨3, 10, 3, Restbucks.CBState.opened, some 0⟩
        { id := 1, drink := "latte", size := "medium", milk := "whole",
          shots := 1, status := "pending", cost := 3, paid := false,
          card_last_four := none }
        { drink := none, size := none, milk := none, shots := none }
        true).1.2 = true ∧
    (Restbucks.update_order_sys
        ⟨3, 10, 3, Restbucks.CBState.opened, some 0⟩
        { id := 1, drink := "latte", size := "medium", milk := "whole",
          shots := 1, status := "pending", cost := 3, paid := false,
          card_last_four := none }
        { drink := none, size := none, milk := none, shots := none }
        false).2
      = ⟨3, 10, 3, Restbucks.CBState.opened, some 0⟩ ∧
    (Restbucks.update_order_sys
        ⟨3, 10, 3, Restbucks.CBState.opened, some 0⟩
        { id := 1, drink := "latte", size := "medium", milk := "whole",
          shots := 1, status := "pending", cost := 3, paid := false,
          card_last_four := none }
        { drink := none, size := none, milk := none, shots := none }
        false).2.failures = 3 := by
  refine ⟨?_, rfl, rfl, rfl, rfl⟩
  norm_num [Restbucks.CircuitBreaker.can_execute]

/-- C8 (amended): only create_order is guarded by the circuit breaker: it
fails fast without touching the store while the breaker rejects
execution, and it records the store write outcome (success or failure)
into the breaker.  The other mutating endpoints (edit, pay,
advance-status, cancel) never consult the breaker, leave it unchanged,
and an edit on a pending unpaid order attempts its write regardless of
the breaker state, with a failing write surfaced as an internal error
that is not recorded as a breaker failure. -/
theorem C8_circuit_guarding :
    (∀ (cb : Restbucks.CircuitBreaker) (now : ℚ)
        (req : Restbucks.OrderRequest) (newId : ℕ) (saveOk : Bool),
      (cb.can_execute now).1 = false →
      Restbucks.create_order cb now req newId saveOk
        = (Except.error Restbucks.ApiError.circuitOpen,
           (cb.can_execute now).2, false)) ∧
    (∀ (cb : Restbucks.CircuitBreaker) (now : ℚ)
        (req : Restbucks.OrderRequest) (newId : ℕ),
      (cb.can_execute now).1 = true →
      Restbucks.create_order cb now req newId true
        = (Except.ok (Restbucks.newOrder req newId),
           (cb.can_execute now).2.record_success, true)) ∧
    (∀ (cb : Restbucks.CircuitBreaker) (now : ℚ)
        (req : Restbucks.OrderRequest) (newId : ℕ),
      (cb.can_execute now).1 = true →
      Restbucks.create_order cb now req newId false
        = (Except.error Restbucks.ApiError.dbUnavailable,
           (cb.can_execute now).2.record_failure now, true)) ∧
    (∀ (cb : Restbucks.CircuitBreaker) (o : Restbucks.Order)
        (u : Restbucks.OrderUpdate) (saveOk : Bool),
      (Restbucks.update_order_sys cb o u saveOk).2 = cb) ∧
    (∀ (cb : Restbucks.CircuitBreaker) (o : Restbucks.Order)
        (card : String) (amount : ℚ) (bk nf ap : Bool),
      (Restbucks.pay_order_sys cb o card amount bk nf ap).2 = cb) ∧
    (∀ (cb : Restbucks.CircuitBreaker) (o : Restbucks.Order) (s : String),
      (Restbucks.update_status_sys cb o s).2 = cb) ∧
    (∀ (cb : Restbucks.CircuitBreaker) (o : Restbucks.Order),
      (Restbucks.cancel_order_sys cb o).2 = cb) ∧
    (∀ (cb : Restbucks.CircuitBreaker) (o : Restbucks.Order)
        (u : Restbucks.OrderUpdate),
      o.status = "pending" → o.paid = false →
      (Restbucks.update_order_sys cb o u false).1.2 = true ∧
      (Restbucks.update_order_sys cb o u false).1.1
        = Except.error Restbucks.ApiError.internalError) := by
  refine ⟨?_, ?_, ?_, ?_, ?_, ?_, ?_, ?_⟩
  · intro cb now req newId saveOk h
    simp only [Restbucks.create_order]
    rw [if_pos h]
  · intro cb now req newId h
    simp only [Restbucks.create_order]
    rw [h, if_neg (by simp)]
    simp
  · intro cb now req newId h
    simp only [Restbucks.create_order]
    rw [h, if_neg (by simp)]
    simp
  · intro cb o u saveOk
    rfl
  · intro cb o card amount bk nf ap
    rfl
  · intro cb o s
    rfl
  · intro cb o
    rfl
  · intro cb o u hs hp
    refine ⟨?_, ?_⟩ <;>
      simp [Restbucks.update_order_sys, Restbucks.update_order, hs, hp]

/-- C8 witness: concrete instances of the guarded create endpoint (open
breaker rejects, closed breaker records success and failure) and of the
unguarded edit endpoint. -/
theorem C8_circuit_guarding_witness :
    Restbucks.create_order
        ⟨3, 10, 3, Restbucks.CBState.opened, some 0⟩ 5
        { drink := "latte", size := "medium", milk := "whole", shots := 1 }
        1 true
      = (Except.error Restbucks.ApiError.circuitOpen,
         ((⟨3, 10, 3, Restbucks.CBState.opened, some 0⟩ :
           Restbucks.CircuitBreaker).can_execute 5).2, false) ∧
    Restbucks.create_order (Restbucks.CircuitBreaker.init 3 10) 0
        { drink := "latte", size := "medium", milk := "whole", shots := 1 }
        1 true
      = (Except.ok (Restbucks.newOrder
          { drink := "latte", size := "medium", milk := "whole",
            shots := 1 } 1),
         ((Restbucks.CircuitBreaker.init 3 10).can_execute
           0).2.record_success, true) ∧
    Restbucks.create_order (Restbucks.CircuitBreaker.init 3 10) 0
        { drink := "latte", size := "medium", milk := "whole", shots := 1 }
        1 false
      = (Except.error Restbucks.ApiError.dbUnavailable,
         ((Restbucks.CircuitBreaker.init 3 10).can_execute
           0).2.record_failure 0, true) ∧
    (Restbucks.update_order_sys (Restbucks.CircuitBreaker.init 3 10)
        { id := 1, drink := "latte", size := "medium", milk := "whole",
          shots := 1, status := "pending", cost := 3, paid := false,
          card_last_four := none }
        { drink := none, size := none, milk := none, shots := none }
        false).1.2 = true :=
  ⟨C8_circuit_guarding.1 _ 5
      { drink := "latte", size := "medium", milk := "whole", shots := 1 }
      1 true (by norm_num [Restbucks.CircuitBreaker.can_execute]),
    C8_circuit_guarding.2.1 _ 0
      { drink := "latte", size := "medium", milk := "whole", shots := 1 }
      1 rfl,
    C8_circuit_guarding.2.2.1 _ 0
      { drink := "latte", size := "medium", milk := "whole", shots := 1 }
      1 rfl,
    (C8_circuit_guarding.2.2.2.2.2.2.2 _
      { id := 1, drink := "latte", size := "medium", milk := "whole",
        shots := 1, status := "pending", cost := 3, paid := false,
        card_last_four := none }
      { drink := none, size := none, milk := none, shots := none }
      rfl rfl).1⟩

/-- C2 counterexample: after the breaker (threshold 3, timeout 10) trips
at time 0, the first can_execute at time 11 returns true and moves the
state to half-open, but the next can_execute before any outcome is
recorded also returns true, because the half-open branch of can_execute
returns true unconditionally; the claim says subsequent calls are again
rejected. -/
theorem C2_halfopen_probe_counterexample :
    ((Restbucks.CircuitBreaker.init 3 10).runFailures [0, 0, 0]).state
        = Restbucks.CBState.opened ∧
    (((Restbucks.CircuitBreaker.init 3 10).runFailures
        [0, 0, 0]).can_execute 11).1 = true ∧
    ((((Restbucks.CircuitBreaker.init 3 10).runFailures
        [0, 0, 0]).can_execute 11).2).state = Restbucks.CBState.halfOpen ∧
    (((((Restbucks.CircuitBreaker.init 3 10).runFailures
        [0, 0, 0]).can_execute 11).2).can_execute 11).1 = true := by
  have h1 : (Restbucks.CircuitBreaker.init 3 10).runFailures [0, 0, 0]
      = ⟨3, 10, 3, Restbucks.CBState.opened, some 0⟩ := rfl
  have h2 : (⟨3, 10, 3, Restbucks.CBState.opened, some 0⟩ :
      Restbucks.CircuitBreaker).can_execute 11
      = (true, ⟨3, 10, 3, Restbucks.CBState.halfOpen, some 0⟩) := by
    norm_num [Restbucks.CircuitBreaker.can_execute]
  rw [h1, h2]
  refine ⟨rfl, rfl, rfl, rfl⟩

/-- C2 (amended): the breaker trips to open after exactly
failureThreshold consecutive failures from the initial closed state (and
stays closed below the threshold); while open it rejects every call made
at most recoveryTimeout after the last failure and allows a call made
strictly later, moving to half-open; in half-open every can_execute
returns true until an outcome is recorded (not just the first such call);
record_success closes the breaker and resets the failure counter; and in
every reachable half-open state record_failure returns the breaker to
open with a refreshed timestamp. -/
theorem C2_circuit_breaker_lifecycle :
    (∀ (th : ℕ) (rt : ℚ) (ts : List ℚ), 1 ≤ th → ts.length = th →
      ((Restbucks.CircuitBreaker.init th rt).runFailures ts).state
        = Restbucks.CBState.opened) ∧
    (∀ (th : ℕ) (rt : ℚ) (ts : List ℚ), ts.length < th →
      ((Restbucks.CircuitBreaker.init th rt).runFailures ts).state
        = Restbucks.CBState.closed) ∧
    (∀ (cb : Restbucks.CircuitBreaker) (now t : ℚ),
      cb.state = Restbucks.CBState.opened →
      cb.last_failure_time = some t → now - t ≤ cb.recovery_timeout →
      cb.can_execute now = (false, cb)) ∧
    (∀ (cb : Restbucks.CircuitBreaker) (now t : ℚ),
      cb.state = Restbucks.CBState.opened →
      cb.last_failure_time = some t → cb.recovery_timeout < now - t →
      cb.can_execute now
        = (true, { cb with state := Restbucks.CBState.halfOpen })) ∧
    (∀ (cb : Restbucks.CircuitBreaker) (now : ℚ),
      cb.state = Restbucks.CBState.halfOpen →
      cb.can_execute now = (true, cb)) ∧
    (∀ cb : Restbucks.CircuitBreaker,
      cb.record_success.state = Restbucks.CBState.closed ∧
        cb.record_success.failures = 0) ∧
    (∀ (th : ℕ) (rt : ℚ) (ops : List Restbucks.CBOp) (now : ℚ),
      ((Restbucks.CircuitBreaker.init th rt).runOps ops).state
        = Restbucks.CBState.halfOpen →
      ((((Restbucks.CircuitBreaker.init th rt).runOps ops).record_failure
          now).state = Restbucks.CBState.opened ∧
        (((Restbucks.CircuitBreaker.init th rt).runOps ops).record_failure
          now).last_failure_time = some now)) := by
  refine ⟨?_, ?_, ?_, ?_, ?_, ?_, ?_⟩
  · intro th rt ts h1 h2
    apply Restbucks.runFailures_opened
    · intro hnil
      rw [hnil] at h2
      simp at h2
      omega
    · simp [Restbucks.CircuitBreaker.init, h2]
  · intro th rt ts hlt
    apply Restbucks.runFailures_closed
    · rfl
    · simpa [Restbucks.CircuitBreaker.init] using hlt
  · intro cb now t hst hl hle
    unfold Restbucks.CircuitBreaker.can_execute
    rw [hst, hl]
    simp only
    rw [if_neg (not_lt.mpr hle)]
  · intro cb now t hst hl hgt
    unfold Restbucks.CircuitBreaker.can_execute
    rw [hst, hl]
    simp only
    rw [if_pos hgt]
  · intro cb now hst
    unfold Restbucks.CircuitBreaker.can_execute
    rw [hst]
  · intro cb
    exact ⟨rfl, rfl⟩
  · intro th rt ops now hst
    have hinv := Restbucks.runOps_inv ops (Restbucks.CircuitBreaker.init
      th rt) (Restbucks.CBInv_init th rt)
    have hth := (hinv (Or.inr hst)).1
    constructor
    · have hc : ((Restbucks.CircuitBreaker.init th rt).runOps
          ops).failure_threshold ≤
          ((Restbucks.CircuitBreaker.init th rt).runOps ops).failures + 1 :=
        Nat.le_succ_of_le hth
      simp [Restbucks.CircuitBreaker.record_failure, hc]
    · simp [Restbucks.CircuitBreaker.record_failure]

/-- C2 witness: concrete instances of every part of the lifecycle theorem
for a breaker with threshold 3 and recovery timeout 10. -/
theorem C2_circuit_breaker_lifecycle_witness :
    ((Restbucks.CircuitBreaker.init 3 10).runFailures [0, 0, 0]).state
        = Restbucks.CBState.opened ∧
    ((Restbucks.CircuitBreaker.init 3 10).runFailures [0, 0]).state
        = Restbucks.CBState.closed ∧
    (⟨3, 10, 3, Restbucks.CBState.opened, some 0⟩ :
        Restbucks.CircuitBreaker).can_execute 5
      = (false, ⟨3, 10, 3, Restbucks.CBState.opened, some 0⟩) ∧
    (⟨3, 10, 3, Restbucks.CBState.opened, some 0⟩ :
        Restbucks.CircuitBreaker).can_execute 11
      = (true, ⟨3, 10, 3, Restbucks.CBState.halfOpen, some 0⟩) ∧
    (⟨3, 10, 3, Restbucks.CBState.halfOpen, some 0⟩ :
        Restbucks.CircuitBreaker).can_execute 11
      = (true, ⟨3, 10, 3, Restbucks.CBState.halfOpen, some 0⟩) ∧
    ((⟨3, 10, 3, Restbucks.CBState.halfOpen, some 0⟩ :
        Restbucks.CircuitBreaker).record_success.state
          = Restbucks.CBState.closed ∧
      (⟨3, 10, 3, Restbucks.CBState.halfOpen, some 0⟩ :
        Restbucks.CircuitBreaker).record_success.failures = 0) ∧
    (((Restbucks.CircuitBreaker.init 3 10).runOps
        [Restbucks.CBOp.recFailure 0, Restbucks.CBOp.recFailure 0,
          Restbucks.CBOp.recFailure 0,
          Restbucks.CBOp.canExec 11]).record_failure 12).state
        = Restbucks.CBState.opened ∧
    (((Restbucks.CircuitBreaker.init 3 10).runOps
        [Restbucks.CBOp.recFailure 0, Restbucks.CBOp.recFailure 0,
          Restbucks.CBOp.recFailure 0,
          Restbucks.CBOp.canExec 11]).record_failure 12).last_failure_time
        = some 12 :=
  ⟨C2_circuit_breaker_lifecycle.1 3 10 [0, 0, 0] (by decide) (by decide),
    C2_circuit_breaker_lifecycle.2.1 3 10 [0, 0] (by decide),
    C2_circuit_breaker_lifecycle.2.2.1 _ 5 0 rfl rfl (by norm_num),
    C2_circuit_breaker_lifecycle.2.2.2.1 _ 11 0 rfl rfl (by norm_num),
    C2_circuit_breaker_lifecycle.2.2.2.2.1 _ 11 rfl,
    C2_circuit_breaker_lifecycle.2.2.2.2.2.1 _,
    (C2_circuit_breaker_lifecycle.2.2.2.2.2.2 3 10
      [Restbucks.CBOp.recFailure 0, Restbucks.CBOp.recFailure 0,
        Restbucks.CBOp.recFailure 0, Restbucks.CBOp.canExec 11] 12
      (by
        norm_num [Restbucks.CircuitBreaker.runOps,
          Restbucks.CircuitBreaker.applyOp,
          Restbucks.CircuitBreaker.record_failure,
          Restbucks.CircuitBreaker.can_execute,
          Restbucks.CircuitBreaker.init])).1,
    (C2_circuit_breaker_lifecycle.2.2.2.2.2.2 3 10
      [Restbucks.CBOp.recFailure 0, Restbucks.CBOp.recFailure 0,
        Restbucks.CBOp.recFailure 0, Restbucks.CBOp.canExec 11] 12
      (by
        norm_num [Restbucks.CircuitBreaker.runOps,
          Restbucks.CircuitBreaker.applyOp,
          Restbucks.CircuitBreaker.record_failure,
          Restbucks.CircuitBreaker.can_execute,
          Restbucks.CircuitBreaker.init])).2⟩
